import Mathlib

/-!
Shallow embedding of the meeting-prep orchestration pipeline of the
exec_assistant repository, covering:

* src/src/exec_assistant/shared/models.py (Meeting, User, enums)
* src/src/exec_assistant/shared/meeting_classifier.py (MeetingClassifier)
* src/src/exec_assistant/shared/notification_service.py (NotificationService)
* src/src/exec_assistant/shared/calendar.py (CalendarClient._event_to_meeting)
* src/src/exec_assistant/workflows/calendar_monitor.py (per-meeting sync loop)
* src/src/exec_assistant/workflows/prep_trigger_handler.py (lambda_handler)

Machine conventions: Python timezone-aware datetimes are modelled by
PyDatetime (wall-clock seconds plus an optional UTC offset; a missing offset
is a naive datetime).  Python exceptions are modelled by the PyError type and
Except.  The DynamoDB meetings table is modelled as a list of Meeting rows
keyed by meeting_id; put_item replaces the row with the same key.
-/

/-- Python exception values that the embedded code can raise. -/
inductive PyError where
  | valueError (msg : String)
  | attributeError (msg : String)
  | clientError (msg : String)
deriving Repr, DecidableEq

/-- Python datetime: wall-clock seconds together with an optional UTC offset
in seconds.  tzOffset = none models a timezone-naive datetime. -/
structure PyDatetime where
  wall : Int
  tzOffset : Option Int
deriving Repr, DecidableEq

namespace PyDatetime

/-- Point on the UTC timeline represented by an aware datetime.  For a naive
datetime this value is never consulted by the embedded code paths below,
which only ever compare validated (aware) datetimes. -/
def instant (d : PyDatetime) : Int := d.wall - d.tzOffset.getD 0

/-- Subtraction of a timedelta (in seconds), as in start_time - timedelta(...). -/
def subSeconds (d : PyDatetime) (s : Int) : PyDatetime := { d with wall := d.wall - s }

/-- Comparison of two aware datetimes (Python compares the instants). -/
def pyLe (a b : PyDatetime) : Bool := decide (a.instant ≤ b.instant)

/-- Strict comparison of two aware datetimes. -/
def pyLt (a b : PyDatetime) : Bool := decide (a.instant < b.instant)

end PyDatetime

/-- MeetingType enum from models.py lines 14-24. -/
inductive MeetingType where
  | leadership_team
  | one_on_one
  | reliability_review
  | qbr
  | executive_staff
  | interview_debrief
  | vendor_meeting
  | unknown
deriving Repr, DecidableEq

namespace MeetingType

/-- String value of each enum member (the str mixin value). -/
def value : MeetingType → String
  | .leadership_team => "leadership_team"
  | .one_on_one => "one_on_one"
  | .reliability_review => "reliability_review"
  | .qbr => "qbr"
  | .executive_staff => "executive_staff"
  | .interview_debrief => "interview_debrief"
  | .vendor_meeting => "vendor_meeting"
  | .unknown => "unknown"

/-- Lookup by value, modelling the MeetingType(type_name) constructor call in
classify_meeting; none models the ValueError branch there. -/
def fromString (s : String) : Option MeetingType :=
  if s = "leadership_team" then some .leadership_team
  else if s = "one_on_one" then some .one_on_one
  else if s = "reliability_review" then some .reliability_review
  else if s = "qbr" then some .qbr
  else if s = "executive_staff" then some .executive_staff
  else if s = "interview_debrief" then some .interview_debrief
  else if s = "vendor_meeting" then some .vendor_meeting
  else if s = "unknown" then some .unknown
  else none

end MeetingType

/-- MeetingStatus enum from models.py lines 27-36. -/
inductive MeetingStatus where
  | discovered
  | classified
  | prep_scheduled
  | prep_in_progress
  | prep_completed
  | completed
  | cancelled
deriving Repr, DecidableEq

namespace MeetingStatus

/-- String value of each status member. -/
def value : MeetingStatus → String
  | .discovered => "discovered"
  | .classified => "classified"
  | .prep_scheduled => "prep_scheduled"
  | .prep_in_progress => "prep_in_progress"
  | .prep_completed => "prep_completed"
  | .completed => "completed"
  | .cancelled => "cancelled"

end MeetingStatus

/-- NotificationChannel enum from models.py lines 50-55. -/
inductive NotificationChannel where
  | slack
  | sms
  | email
deriving Repr, DecidableEq

/-- Meeting model from models.py lines 58-113, with exactly the fields
declared there.  The model declares NO notification_id and NO
notification_sent_at field (the notification-tracking attributes that
prep_trigger_handler.py and tests/test_models.py refer to are absent from
the pydantic model). -/
structure Meeting where
  meeting_id : String
  external_id : Option String := none
  user_id : String
  source : String := "manual"
  title : String
  description : Option String := none
  start_time : PyDatetime
  end_time : PyDatetime
  location : Option String := none
  attendees : List String := []
  organizer : Option String := none
  meeting_type : MeetingType := .unknown
  status : MeetingStatus := .discovered
  prep_trigger_time : Option PyDatetime := none
  prep_hours_before : Option Int := none
  chat_session_id : Option String := none
  materials_s3_key : Option String := none
  created_at : PyDatetime
  updated_at : PyDatetime
  last_synced_at : Option PyDatetime := none
deriving Repr, DecidableEq

/-- User model from models.py lines 408-453 (fields only).  The model
declares NO phone_number field, although prep_trigger_handler.py line 417 and
notification_service.py line 408 read user.phone_number. -/
structure User where
  user_id : String
  google_id : String
  email : String
  name : String
  picture_url : Option String := none
  calendar_connected : Bool := false
  calendar_refresh_token : Option String := none
  calendar_last_sync : Option PyDatetime := none
  timezone : String := "America/New_York"
  notification_preferences : List (String × Bool) :=
    [("prep_reminders", true), ("meeting_updates", true), ("daily_summary", false)]
  created_at : PyDatetime
  last_login_at : PyDatetime
  updated_at : PyDatetime
deriving Repr, DecidableEq

namespace Meeting

/-- Validator ensure_utc from models.py lines 106-113: a naive datetime is a
ValueError, an aware one is returned unchanged. -/
def ensure_utc (v : PyDatetime) : Except PyError PyDatetime :=
  if v.tzOffset.isNone then Except.error (PyError.valueError "Datetime must be timezone-aware")
  else Except.ok v

/-- Pydantic validation pass for a Meeting: ensure_utc runs on start_time,
end_time, created_at and updated_at (the fields listed in the
field_validator decorator, models.py line 106).  Every construction of a
Meeting in the Python code goes through this validation. -/
def validate (m : Meeting) : Except PyError Meeting := do
  let _ ← ensure_utc m.start_time
  let _ ← ensure_utc m.end_time
  let _ ← ensure_utc m.created_at
  let _ ← ensure_utc m.updated_at
  return m

/-- Meeting.from_dynamodb (models.py lines 131-145): the stored item has its
datetime strings parsed by datetime.fromisoformat (which yields an aware or a
naive PyDatetime depending on whether the stored string carries an offset),
and the result is passed to the Meeting constructor, i.e. through the same
pydantic validation.  The item is given here with its datetime fields already
parsed. -/
def from_dynamodb (item : Meeting) : Except PyError Meeting :=
  Meeting.validate item

end Meeting

/-- Python str.lower, modelled character-wise (ASCII-faithful). -/
def pyStrLower (s : String) : String := String.mk (s.data.map Char.toLower)

/-- Leading-run match: the needle is char-for-char a leading run of the hay.
Helper for the Python substring and startswith operators. -/
def charsLeadMatch : List Char → List Char → Bool
  | [], _ => true
  | _ :: _, [] => false
  | c :: cs, d :: ds => c == d && charsLeadMatch cs ds

/-- Python membership test needle in hay on strings (substring containment). -/
def pyStrIn (needle hay : String) : Bool := go needle.data hay.data
where
  go (n : List Char) : List Char → Bool
    | [] => charsLeadMatch n []
    | d :: ds => charsLeadMatch n (d :: ds) || go n ds

/-- Python str.startswith. -/
def pyStartsWith (s pre : String) : Bool := charsLeadMatch pre.data s.data

/-- Detection rule for one meeting type, from the meeting_type_detection
section of agents.yaml: keyword list (rules.get("keywords", [])) and the
optional min_attendees / max_attendees bounds. -/
structure DetectionRule where
  keywords : List String := []
  min_attendees : Option Nat := none
  max_attendees : Option Nat := none
deriving Repr, DecidableEq

/-- Ordered rule table: the meeting_type_detection dict, iterated in
configured order by classify_meeting. -/
abbrev DetectionRules := List (String × DetectionRule)

/-- Per-type lead-hour table: the prep_timing dict, looked up by the string
value of the meeting type. -/
abbrev PrepTiming := List (String × Int)

namespace MeetingClassifier

/-- Loop body of classify_meeting (meeting_classifier.py lines 124-175): for
each (type_name, rules) entry in config order, skip entries whose type name
is not a MeetingType value, skip on no keyword match, skip when the attendee
count violates min_attendees or max_attendees, and return the first match. -/
def classifyGo (title : String) (attendee_count : Nat) : DetectionRules → MeetingType
  | [] => .unknown
  | (type_name, rules) :: rest =>
    match MeetingType.fromString type_name with
    | none => classifyGo title attendee_count rest
    | some meeting_type =>
      let keyword_match := rules.keywords.any (fun keyword => pyStrIn (pyStrLower keyword) title)
      if !keyword_match then classifyGo title attendee_count rest
      else if rules.min_attendees.elim false (fun m => attendee_count < m) then
        classifyGo title attendee_count rest
      else if rules.max_attendees.elim false (fun m => attendee_count > m) then
        classifyGo title attendee_count rest
      else meeting_type

/-- MeetingClassifier.classify_meeting (meeting_classifier.py lines 90-184):
lower-case the title (empty stays empty), return unknown on an empty title,
otherwise run the rules in config order. -/
def classify_meeting (detection_rules : DetectionRules) (meeting : Meeting) : MeetingType :=
  let title := pyStrLower meeting.title
  let attendee_count := meeting.attendees.length
  if title = "" then .unknown
  else classifyGo title attendee_count detection_rules

/-- Value computed by get_prep_hours for a genuine MeetingType argument
(meeting_classifier.py lines 203-221): prep_timing.get(type_key), falling
back to prep_timing.get("unknown", 24) when the type is unconfigured. -/
def prep_hours_value (prep_timing : PrepTiming) (meeting_type : MeetingType) : Int :=
  match List.lookup meeting_type.value prep_timing with
  | some prep_hours => prep_hours
  | none => (List.lookup "unknown" prep_timing).getD 24

/-- Dynamic argument passed to get_prep_hours: either an actual MeetingType
member, or any other Python value (carried as a printed representation). -/
inductive PyDynArg where
  | ofMeetingType (mt : MeetingType)
  | notMeetingType (typeRepr : String)
deriving Repr, DecidableEq

/-- MeetingClassifier.get_prep_hours (meeting_classifier.py lines 186-221):
the isinstance check raises ValueError for a non-MeetingType argument; for a
member it returns the configured hours with the unknown/24 fallback. -/
def get_prep_hours (prep_timing : PrepTiming) : PyDynArg → Except PyError Int
  | .notMeetingType typeRepr =>
    Except.error (PyError.valueError
      ("meeting_type must be MeetingType enum, got " ++ typeRepr))
  | .ofMeetingType meeting_type => Except.ok (prep_hours_value prep_timing meeting_type)

/-- MeetingClassifier.should_trigger_prep (meeting_classifier.py lines
223-261): prep_trigger_time = start_time - timedelta(hours=prep_hours), and
in_window = prep_trigger_time <= current_time < start_time.  The
get_prep_hours call receives the typed meeting.meeting_type and therefore
cannot raise. -/
def should_trigger_prep (prep_timing : PrepTiming) (meeting : Meeting)
    (current_time : PyDatetime) : Bool :=
  let prep_hours := prep_hours_value prep_timing meeting.meeting_type
  let prep_trigger_time := meeting.start_time.subSeconds (3600 * prep_hours)
  prep_trigger_time.pyLe current_time && current_time.pyLt meeting.start_time

end MeetingClassifier

/-- NotificationStatus enum from notification_service.py lines 31-36.  The
third member (value "partial") is written partialStatus here because the
Python name is not a legal Lean identifier in this development. -/
inductive NotificationStatus where
  | success
  | failed
  | partialStatus
deriving Repr, DecidableEq

/-- NotificationResult from notification_service.py lines 39-73.  The
failed_channels dict is kept as an ordered association list. -/
structure NotificationResult where
  status : NotificationStatus
  delivered_channels : List NotificationChannel
  failed_channels : List (NotificationChannel × String)
  message_id : Option String := none
deriving Repr, DecidableEq

/-- Channel configuration computed in NotificationService init
(notification_service.py lines 98-119): slack_enabled, twilio_enabled,
ses_enabled derived from credentials. -/
structure ChannelConfig where
  slack_enabled : Bool
  twilio_enabled : Bool
  ses_enabled : Bool
deriving Repr, DecidableEq

/-- Outcome of one channel-send body (_send_slack_notification,
_send_sms_notification, _send_email_notification): these perform provider
I/O and either return a provider message id or raise; any exception raised in
the body (provider error, timeout, or the AttributeError from reading the
missing user.phone_number field in _send_sms_notification) is caught by the
per-channel except clause and carried as the error string. -/
abbrev ChannelAttempt := NotificationChannel → Except String String

namespace NotificationService

/-- NotificationService._is_channel_enabled
(notification_service.py lines 255-270). -/
def is_channel_enabled (cfg : ChannelConfig) : NotificationChannel → Bool
  | .slack => cfg.slack_enabled
  | .sms => cfg.twilio_enabled
  | .email => cfg.ses_enabled

/-- Channel loop of send_prep_notification (notification_service.py lines
176-229): attempt each available channel in order; on the first success
record the channel as delivered, take its message id, and break; on an
exception record the channel with the error string and continue.
Returns (delivered_channels, failed_channels, message_id). -/
def notifyLoop (attempt : ChannelAttempt) :
    List NotificationChannel →
    List NotificationChannel × List (NotificationChannel × String) × Option String
  | [] => ([], [], none)
  | channel :: rest =>
    match attempt channel with
    | Except.ok msg_id => ([channel], [], some msg_id)
    | Except.error e =>
      let (delivered, failed, message_id) := notifyLoop attempt rest
      (delivered, (channel, e) :: failed, message_id)

/-- NotificationService.send_prep_notification (notification_service.py
lines 128-253): default the channel list, filter to enabled channels, raise
ValueError when none remain, run the fallback loop, and build the result
with status success exactly when some channel delivered. -/
def send_prep_notification (cfg : ChannelConfig) (attempt : ChannelAttempt)
    (_meeting : Meeting) (_user : User)
    (channels : Option (List NotificationChannel)) : Except PyError NotificationResult :=
  let channels := channels.getD [.slack, .sms, .email]
  let available_channels := channels.filter (is_channel_enabled cfg)
  if available_channels = [] then
    Except.error (PyError.valueError "No notification channels available or enabled")
  else
    let (delivered_channels, failed_channels, message_id) := notifyLoop attempt available_channels
    Except.ok {
      status := if delivered_channels ≠ [] then .success else .failed
      delivered_channels := delivered_channels
      failed_channels := failed_channels
      message_id := message_id }

end NotificationService

/-- DynamoDB meetings table: rows keyed by meeting_id. -/
abbrev Store := List Meeting

namespace Store

/-- get_item on the meetings table by meeting_id key. -/
def get_item (store : Store) (meeting_id : String) : Option Meeting :=
  store.find? (fun r => r.meeting_id = meeting_id)

/-- put_item on the meetings table: full-item replace of the row with the
same meeting_id key (DynamoDB upsert). -/
def put_item (store : Store) (m : Meeting) : Store :=
  store.filter (fun r => r.meeting_id ≠ m.meeting_id) ++ [m]

end Store

/-- Python truthiness of the optional external_id string: None and the empty
string are falsy. -/
def truthyExternal (m : Meeting) : Bool :=
  match m.external_id with
  | none => false
  | some s => s ≠ ""

/-- PrepTriggerEvent detail built by emit_prep_trigger_event
(calendar_monitor.py lines 447-453). -/
structure PrepTriggerEvent where
  meeting_id : String
  user_id : String
  meeting_type : String
  start_time : PyDatetime
  title : String
deriving Repr, DecidableEq

namespace CalendarMonitor

/-- sync_meeting_to_dynamodb (calendar_monitor.py lines 353-431).  The
function mutates the passed meeting and writes it: look up the existing row
by meeting_id when external_id is truthy; set updated_at = now; for a new
meeting, replace a meeting_id that is empty or does not start with gcal- by
a fresh gcal- id and set created_at = now; for an existing meeting, copy the
stored created_at onto the incoming meeting; then put_item the result.
Returns the updated store together with the mutated meeting object.
The fresh uuid hex is supplied as freshId. -/
def sync_meeting_to_dynamodb (store : Store) (meeting : Meeting)
    (now : PyDatetime) (freshId : String) : Store × Meeting :=
  let existing_meeting : Option Meeting :=
    if truthyExternal meeting then Store.get_item store meeting.meeting_id else none
  let meeting := { meeting with updated_at := now }
  match existing_meeting with
  | none =>
    let meeting :=
      if meeting.meeting_id = "" || !(pyStartsWith meeting.meeting_id "gcal-") then
        { meeting with meeting_id := "gcal-" ++ freshId }
      else meeting
    let meeting := { meeting with created_at := now }
    (Store.put_item store meeting, meeting)
  | some existing =>
    let meeting := { meeting with created_at := existing.created_at }
    (Store.put_item store meeting, meeting)

/-- emit_prep_trigger_event detail (calendar_monitor.py lines 434-453):
the event published to EventBridge for a meeting requiring prep. -/
def emit_prep_trigger_event (meeting : Meeting) : PrepTriggerEvent :=
  { meeting_id := meeting.meeting_id
    user_id := meeting.user_id
    meeting_type := meeting.meeting_type.value
    start_time := meeting.start_time
    title := meeting.title }

/-- Loop body of process_user_calendar for one fetched meeting
(calendar_monitor.py lines 281-335): classify, advance discovered to
classified, annotate prep_hours_before and last_synced_at, sync to the
store, then — using the in-memory meeting object as mutated by the sync —
emit a PrepTriggerEvent when should_trigger_prep holds and the object's
status is discovered or classified. -/
def process_user_calendar_step (detection_rules : DetectionRules)
    (prep_timing : PrepTiming) (store : Store) (fetched : Meeting)
    (current_time : PyDatetime) (freshId : String) :
    Store × Meeting × Option PrepTriggerEvent :=
  let meeting_type := MeetingClassifier.classify_meeting detection_rules fetched
  let meeting := { fetched with meeting_type := meeting_type }
  let meeting :=
    if meeting.status = MeetingStatus.discovered then
      { meeting with status := MeetingStatus.classified }
    else meeting
  let prep_hours := MeetingClassifier.prep_hours_value prep_timing meeting_type
  let meeting := { meeting with
    prep_hours_before := some prep_hours
    last_synced_at := some current_time }
  let (store, meeting) := sync_meeting_to_dynamodb store meeting current_time freshId
  if MeetingClassifier.should_trigger_prep prep_timing meeting current_time
      && (meeting.status = MeetingStatus.discovered
          || meeting.status = MeetingStatus.classified) then
    (store, meeting, some (emit_prep_trigger_event meeting))
  else
    (store, meeting, none)

end CalendarMonitor

/-- CalendarClient._event_to_meeting, Meeting construction part
(calendar.py lines 635-649): the Meeting built from a fetched Google
Calendar event, with meeting_id = "gcal-" ++ the event id, external_id = the
event id, source google_calendar, and the model defaults for meeting_type
(unknown) and status (discovered).  created_at and updated_at take the
pydantic default datetime.now(UTC), supplied here as ctime. -/
def event_to_meeting (uid eid summary : String)
    (start_time end_time : PyDatetime)
    (attendees : List String) (organizer location description : Option String)
    (ctime : PyDatetime) : Meeting :=
  { meeting_id := "gcal-" ++ eid
    external_id := some eid
    user_id := uid
    source := "google_calendar"
    title := summary
    description := description
    start_time := start_time
    end_time := end_time
    location := location
    attendees := attendees
    organizer := organizer
    created_at := ctime
    updated_at := ctime }

namespace PrepTriggerHandler

/-- Detail fields of the inbound EventBridge event that lambda_handler reads
(prep_trigger_handler.py lines 75-77): detail.get returns none for a missing
key. -/
structure EventDetail where
  meeting_id : Option String := none
  user_id : Option String := none
deriving Repr, DecidableEq

/-- Python truthiness of an optional string: None and the empty string are
falsy. -/
def truthyOptStr : Option String → Bool
  | none => false
  | some s => s ≠ ""

/-- Body shapes of the JSON responses built by lambda_handler. -/
inductive LambdaBody where
  | validationError (msg : String)
  | internalError
  | alreadySent
  | alreadyProcessed (statusValue : String)
  | sentOk (result : NotificationResult)
deriving Repr, DecidableEq

/-- Response of one lambda_handler invocation. -/
structure LambdaResponse where
  statusCode : Nat
  body : LambdaBody
deriving Repr, DecidableEq

/-- Mapping of a raised exception to the handler response, per the except
clauses of lambda_handler (prep_trigger_handler.py lines 184-214): ValueError
becomes a 400 ValidationError response, any other exception becomes a 500
InternalError response. -/
def exceptionResponse : PyError → LambdaResponse
  | PyError.valueError msg => { statusCode := 400, body := LambdaBody.validationError msg }
  | _ => { statusCode := 500, body := LambdaBody.internalError }

/-- Attribute read meeting.notification_sent_at performed at
prep_trigger_handler.py line 112.  The Meeting model (models.py lines
58-113) declares no notification_sent_at field, and pydantic v2 with the
default configuration drops unknown constructor keys and raises
AttributeError on reading an undeclared attribute, so this access raises
unconditionally. -/
def pyattr_notification_sent_at (_ : Meeting) : Except PyError (Option PyDatetime) :=
  Except.error (PyError.attributeError
    "Meeting object has no attribute notification_sent_at")

/-- Attribute write meeting.notification_id = ... performed at
prep_trigger_handler.py line 159.  Pydantic v2 raises ValueError on
assignment to an undeclared field, and Meeting declares no notification_id
field. -/
def pysetattr_notification_id (_ : Meeting) (_ : Option String) : Except PyError Meeting :=
  Except.error (PyError.valueError "Meeting object has no field notification_id")

/-- Attribute write meeting.notification_sent_at = ... performed at
prep_trigger_handler.py line 160; raises for the same reason. -/
def pysetattr_notification_sent_at (_ : Meeting) (_ : PyDatetime) : Except PyError Meeting :=
  Except.error (PyError.valueError "Meeting object has no field notification_sent_at")

/-- Attribute read user.phone_number performed at prep_trigger_handler.py
line 417.  The User model (models.py lines 408-453) declares no phone_number
field, so the access raises AttributeError. -/
def pyattr_phone_number (_ : User) : Except PyError (Option String) :=
  Except.error (PyError.attributeError "User object has no attribute phone_number")

/-- fetch_meeting (prep_trigger_handler.py lines 217-266): get_item by
meeting_id, none when the row is absent. -/
def fetch_meeting (store : Store) (meeting_id : String) : Option Meeting :=
  Store.get_item store meeting_id

/-- fetch_user (prep_trigger_handler.py lines 269-318): get_item on the
users table by user_id. -/
def fetch_user (users : List User) (user_id : String) : Option User :=
  users.find? (fun u => u.user_id = user_id)

/-- get_notification_channels (prep_trigger_handler.py lines 400-429): Slack
always first, SMS when user.phone_number is truthy, email always last.  The
phone_number read raises because User declares no such field. -/
def get_notification_channels (user : User) : Except PyError (List NotificationChannel) := do
  let phone ← pyattr_phone_number user
  return [NotificationChannel.slack]
    ++ (if truthyOptStr phone then [NotificationChannel.sms] else [])
    ++ [NotificationChannel.email]

/-- lambda_handler (prep_trigger_handler.py lines 57-214), with the meetings
table, users table, channel configuration and channel-send outcomes supplied
explicitly.  Returns the response together with the final meetings table.
The try/except wrapper maps a raised ValueError to a 400 response and any
other exception to a 500 response (see exceptionResponse). -/
def lambda_handler (cfg : ChannelConfig) (attempt : ChannelAttempt)
    (users : List User) (now : PyDatetime) (store : Store)
    (event : EventDetail) : LambdaResponse × Store :=
  if !truthyOptStr event.meeting_id || !truthyOptStr event.user_id then
    (exceptionResponse (PyError.valueError "Event must contain meeting_id and user_id"), store)
  else
    let meeting_id := event.meeting_id.getD ""
    let user_id := event.user_id.getD ""
    match fetch_meeting store meeting_id with
    | none =>
      (exceptionResponse (PyError.valueError ("Meeting " ++ meeting_id ++ " not found")), store)
    | some meeting =>
      match fetch_user users user_id with
      | none =>
        (exceptionResponse (PyError.valueError ("User " ++ user_id ++ " not found")), store)
      | some user =>
        match pyattr_notification_sent_at meeting with
        | Except.error e => (exceptionResponse e, store)
        | Except.ok notification_sent_at =>
          if notification_sent_at.isSome then
            ({ statusCode := 200, body := LambdaBody.alreadySent }, store)
          else if !(meeting.status = MeetingStatus.discovered
                    || meeting.status = MeetingStatus.classified) then
            ({ statusCode := 200, body := LambdaBody.alreadyProcessed meeting.status.value },
             store)
          else
            let meeting := { meeting with
              status := MeetingStatus.prep_scheduled, updated_at := now }
            let store := Store.put_item store meeting
            match get_notification_channels user with
            | Except.error e => (exceptionResponse e, store)
            | Except.ok channels =>
              match NotificationService.send_prep_notification cfg attempt meeting user
                  (some channels) with
              | Except.error e => (exceptionResponse e, store)
              | Except.ok result =>
                if truthyOptStr result.message_id then
                  match pysetattr_notification_id meeting result.message_id with
                  | Except.error e => (exceptionResponse e, store)
                  | Except.ok meeting =>
                    match pysetattr_notification_sent_at meeting now with
                    | Except.error e => (exceptionResponse e, store)
                    | Except.ok meeting =>
                      let meeting := { meeting with updated_at := now }
                      let store := Store.put_item store meeting
                      ({ statusCode := 200, body := LambdaBody.sentOk result }, store)
                else
                  ({ statusCode := 200, body := LambdaBody.sentOk result }, store)

end PrepTriggerHandler

/-- Specification predicate for one detection-rule entry: the entry names an
actual MeetingType value, some keyword is a case-insensitive substring of the
(lower-cased) title, and the attendee count satisfies the optional inclusive
bounds.  Used to characterize classify_meeting as first-match-wins. -/
def ruleMatches (title : String) (attendee_count : Nat)
    (entry : String × DetectionRule) : Bool :=
  (MeetingType.fromString entry.1).isSome
  && entry.2.keywords.any (fun keyword => pyStrIn (pyStrLower keyword) title)
  && !(entry.2.min_attendees.elim false (fun m => attendee_count < m))
  && !(entry.2.max_attendees.elim false (fun m => attendee_count > m))

/-- Whether the attempt of the given channel raises (fails). -/
def failsOn (attempt : ChannelAttempt) (ch : NotificationChannel) : Bool :=
  match attempt ch with
  | Except.ok _ => false
  | Except.error _ => true

/-- Error string recorded for a failing channel attempt. -/
def attemptError (attempt : ChannelAttempt) (ch : NotificationChannel) : String :=
  match attempt ch with
  | Except.error e => e
  | Except.ok _ => ""

/-- Provider message id of a succeeding channel attempt. -/
def attemptMsgId (attempt : ChannelAttempt) (ch : NotificationChannel) : Option String :=
  match attempt ch with
  | Except.ok v => some v
  | Except.error _ => none

/-! Concrete fixtures used by witness theorems. -/

/-- Sample meeting with a given start instant (UTC). -/
def sampleMeeting (start : Int) : Meeting :=
  { meeting_id := "gcal-w1", external_id := some "w1", user_id := "U1",
    title := "Weekly Sync", start_time := ⟨start, some 0⟩,
    end_time := ⟨start + 3600, some 0⟩,
    created_at := ⟨0, some 0⟩, updated_at := ⟨0, some 0⟩ }

/-- Sample user. -/
def sampleUser : User :=
  { user_id := "U1", google_id := "g1", email := "u@example.com", name := "Test User",
    created_at := ⟨0, some 0⟩, last_login_at := ⟨0, some 0⟩, updated_at := ⟨0, some 0⟩ }

/-- Channel attempts where Slack fails with an application-level error and
SMS succeeds with a provider message id. -/
def attemptSmsOk : ChannelAttempt := fun ch =>
  match ch with
  | NotificationChannel.slack => Except.error "Slack API error: channel_not_found"
  | NotificationChannel.sms => Except.ok "SM123"
  | NotificationChannel.email => Except.ok "E1"

/-! Helper lemmas about the store and the string helpers. -/

theorem charsLeadMatch_append (p r : List Char) : charsLeadMatch p (p ++ r) = true := by
  induction p with
  | nil => rfl
  | cons c cs ih => simp [charsLeadMatch, ih]

theorem pyStartsWith_gcal (eid : String) : pyStartsWith ("gcal-" ++ eid) "gcal-" = true := by
  show charsLeadMatch "gcal-".data ("gcal-".data ++ eid.data) = true
  exact charsLeadMatch_append _ _

theorem gcal_append_ne_empty (eid : String) : ("gcal-" ++ eid) = "" → False := by
  intro h
  have hd := congrArg String.data h
  simp [String.data_append] at hd

theorem get_item_put_item_same (s : Store) (m : Meeting) :
    Store.get_item (Store.put_item s m) m.meeting_id = some m := by
  unfold Store.get_item Store.put_item
  rw [List.find?_append]
  have h1 : (s.filter fun r => r.meeting_id ≠ m.meeting_id).find?
      (fun r => r.meeting_id = m.meeting_id) = none := by
    rw [List.find?_eq_none]
    intro x hx
    have hx2 := (List.mem_filter.mp hx).2
    simpa using hx2
  simp [h1, List.find?]

theorem put_item_put_item_same (s : Store) (m m2 : Meeting)
    (h : m2.meeting_id = m.meeting_id) :
    Store.put_item (Store.put_item s m) m2 = Store.put_item s m2 := by
  unfold Store.put_item
  rw [List.filter_append, List.append_assoc]
  congr 1
  · rw [List.filter_filter]
    congr 1
    funext r
    rw [h]
    cases hr : decide (r.meeting_id ≠ m.meeting_id) <;> simp_all
  · simp [h]

theorem countP_put_item_le (s : Store) (m : Meeting) (p : Meeting → Bool) :
    (Store.put_item s m).countP p ≤ s.countP p + 1 := by
  unfold Store.put_item
  rw [List.countP_append]
  have h1 : (s.filter fun r => r.meeting_id ≠ m.meeting_id).countP p ≤ s.countP p :=
    (List.filter_sublist s).countP_le p
  have h2 : List.countP p [m] ≤ 1 := by
    simp [List.countP, List.countP.go]
    cases p m <;> simp
  omega

/-- Branch characterization of sync_meeting_to_dynamodb: with an existing row
it copies exactly the stored created_at onto the incoming meeting (all other
fields come from the incoming meeting) and writes it; without one it sets
created_at = now and re-keys only a meeting_id that is empty or not
gcal-prefixed. -/
theorem sync_spec (store : Store) (m : Meeting) (now : PyDatetime) (fid : String) :
    CalendarMonitor.sync_meeting_to_dynamodb store m now fid =
      match (if truthyExternal m then Store.get_item store m.meeting_id else none) with
      | some ex =>
        (Store.put_item store { m with created_at := ex.created_at, updated_at := now },
         { m with created_at := ex.created_at, updated_at := now })
      | none =>
        let mid := if m.meeting_id = "" || !(pyStartsWith m.meeting_id "gcal-") then
            "gcal-" ++ fid else m.meeting_id
        (Store.put_item store { m with meeting_id := mid, created_at := now, updated_at := now },
         { m with meeting_id := mid, created_at := now, updated_at := now }) := by
  unfold CalendarMonitor.sync_meeting_to_dynamodb
  cases (if truthyExternal m then Store.get_item store m.meeting_id else none) with
  | none => simp only []; split <;> rfl
  | some ex => rfl

/-- Fallback-loop characterization: the loop output is determined by the
failing run of channels before the first success. -/
theorem notifyLoop_spec (attempt : ChannelAttempt) (l : List NotificationChannel) :
    NotificationService.notifyLoop attempt l =
      match l.dropWhile (failsOn attempt) with
      | [] => ([], l.map (fun ch => (ch, attemptError attempt ch)), none)
      | c :: _ =>
        ([c], (l.takeWhile (failsOn attempt)).map (fun ch => (ch, attemptError attempt ch)),
         attemptMsgId attempt c) := by
  induction l with
  | nil => rfl
  | cons ch t ih =>
    unfold NotificationService.notifyLoop
    cases h : attempt ch with
    | ok v =>
      have hf : failsOn attempt ch = false := by simp [failsOn, h]
      simp [List.dropWhile_cons, List.takeWhile_cons, hf, attemptMsgId, h]
    | error e =>
      have hf : failsOn attempt ch = true := by simp [failsOn, h]
      rw [ih]
      have he : attemptError attempt ch = e := by simp [attemptError, h]
      simp only [List.dropWhile_cons, List.takeWhile_cons, hf, if_pos, ite_true]
      cases hd : t.dropWhile (failsOn attempt) <;> simp [he]

/-- Frame property of the fallback loop: channels after the first success are
never consulted — the loop output only depends on the attempts of the
failing run and of the first succeeding channel. -/
theorem notifyLoop_congr (attempt attempt2 : ChannelAttempt) :
    ∀ l : List NotificationChannel,
      (∀ ch ∈ l.takeWhile (failsOn attempt) ++ (l.dropWhile (failsOn attempt)).take 1,
        attempt2 ch = attempt ch) →
      NotificationService.notifyLoop attempt2 l = NotificationService.notifyLoop attempt l := by
  intro l
  induction l with
  | nil => intro _; rfl
  | cons ch t ih =>
    intro hagree
    cases hf : failsOn attempt ch with
    | false =>
      have hch : attempt2 ch = attempt ch := by
        apply hagree
        simp [List.takeWhile_cons, List.dropWhile_cons, hf]
      unfold NotificationService.notifyLoop
      rw [hch]
      cases h : attempt ch with
      | ok v => rfl
      | error e => simp [failsOn, h] at hf
    | true =>
      have hch : attempt2 ch = attempt ch := by
        apply hagree
        simp [List.takeWhile_cons, hf]
      have hrec : NotificationService.notifyLoop attempt2 t =
          NotificationService.notifyLoop attempt t := by
        apply ih
        intro c hc
        apply hagree
        simp only [List.takeWhile_cons, List.dropWhile_cons, hf, ite_true]
        simp only [List.cons_append, List.mem_cons]
        right
        exact hc
      unfold NotificationService.notifyLoop
      rw [hch]
      cases h : attempt ch with
      | ok v => simp [failsOn, h] at hf
      | error e => rw [hrec]

/-- C6: for every channel list that is non-empty after filtering to enabled
channels, send_prep_notification returns (never raises) a result whose status
is success exactly when some channel delivered and is never partial; when the
available channels split as a failing run followed by a first success c, the
result has status success, delivered_channels = [c], message_id = the id of
c, failed_channels = exactly the failing run with its errors, and the result
is unchanged under any attempt function that agrees on the failing run and on
c — channels after the first success are never attempted; when every
available channel fails, the status is failed and every channel appears in
failed_channels. -/
theorem send_prep_notification_fallback (cfg : ChannelConfig) (attempt : ChannelAttempt)
    (meeting : Meeting) (user : User) (channels : List NotificationChannel)
    (h : channels.filter (NotificationService.is_channel_enabled cfg) ≠ []) :
    ∃ r, NotificationService.send_prep_notification cfg attempt meeting user (some channels) =
        Except.ok r ∧
      r.status ≠ NotificationStatus.partialStatus ∧
      (∀ c rest,
        (channels.filter (NotificationService.is_channel_enabled cfg)).dropWhile
            (failsOn attempt) = c :: rest →
        r.status = NotificationStatus.success ∧
        r.delivered_channels = [c] ∧
        r.message_id = attemptMsgId attempt c ∧
        r.failed_channels =
          ((channels.filter (NotificationService.is_channel_enabled cfg)).takeWhile
            (failsOn attempt)).map (fun ch => (ch, attemptError attempt ch)) ∧
        (∀ attempt2 : ChannelAttempt,
          (∀ ch ∈ (channels.filter (NotificationService.is_channel_enabled cfg)).takeWhile
              (failsOn attempt) ++ [c], attempt2 ch = attempt ch) →
          NotificationService.send_prep_notification cfg attempt2 meeting user (some channels) =
            Except.ok r)) ∧
      ((channels.filter (NotificationService.is_channel_enabled cfg)).dropWhile
          (failsOn attempt) = [] →
        r.status = NotificationStatus.failed ∧ r.delivered_channels = [] ∧
        r.message_id = none ∧
        r.failed_channels = (channels.filter (NotificationService.is_channel_enabled cfg)).map
          (fun ch => (ch, attemptError attempt ch))) := by
  set avail := channels.filter (NotificationService.is_channel_enabled cfg) with havail
  cases hd : avail.dropWhile (failsOn attempt) with
  | nil =>
    have hloop : NotificationService.notifyLoop attempt avail =
        ([], avail.map (fun ch => (ch, attemptError attempt ch)), none) := by
      rw [notifyLoop_spec, hd]
    refine ⟨{ status := NotificationStatus.failed, delivered_channels := [],
              failed_channels := avail.map (fun ch => (ch, attemptError attempt ch)),
              message_id := none }, ?_, by simp, ?_, ?_⟩
    · unfold NotificationService.send_prep_notification
      simp only [Option.getD_some, ← havail]
      rw [if_neg h]
      simp [hloop]
    · intro c rest hc
      exact absurd hc (by simp)
    · intro _
      exact ⟨rfl, rfl, rfl, rfl⟩
  | cons c rest =>
    have hloop : NotificationService.notifyLoop attempt avail =
        ([c], (avail.takeWhile (failsOn attempt)).map (fun ch => (ch, attemptError attempt ch)),
         attemptMsgId attempt c) := by
      rw [notifyLoop_spec, hd]
    refine ⟨{ status := NotificationStatus.success, delivered_channels := [c],
              failed_channels := (avail.takeWhile (failsOn attempt)).map
                (fun ch => (ch, attemptError attempt ch)),
              message_id := attemptMsgId attempt c }, ?_, by simp, ?_, ?_⟩
    · unfold NotificationService.send_prep_notification
      simp only [Option.getD_some, ← havail]
      rw [if_neg h]
      simp [hloop]
    · intro c2 rest2 hc2
      have hceq : c = c2 := (List.cons.inj hc2).1
      subst hceq
      refine ⟨rfl, rfl, rfl, rfl, ?_⟩
      intro attempt2 hagree
      have hcong : NotificationService.notifyLoop attempt2 avail =
          NotificationService.notifyLoop attempt avail := by
        apply notifyLoop_congr
        intro ch hch
        apply hagree
        rw [hd] at hch
        simpa using hch
      unfold NotificationService.send_prep_notification
      simp only [Option.getD_some, ← havail]
      rw [if_neg h]
      simp [hcong, hloop]
    · intro hnil
      exact absurd hnil (by simp)

/-- Witness for send_prep_notification_fallback: Slack fails, SMS succeeds,
email configured but never attempted — result is success with
delivered_channels = [sms] and Slack recorded in failed_channels. -/
theorem send_prep_notification_fallback_witness :
    ∃ r, NotificationService.send_prep_notification ⟨true, true, true⟩ attemptSmsOk
        (sampleMeeting 1000000) sampleUser
        (some [NotificationChannel.slack, NotificationChannel.sms, NotificationChannel.email]) =
        Except.ok r ∧
      r.status = NotificationStatus.success ∧
      r.delivered_channels = [NotificationChannel.sms] ∧
      r.failed_channels = [(NotificationChannel.slack, "Slack API error: channel_not_found")] ∧
      r.message_id = some "SM123" := by
  obtain ⟨r, hs, hnp, hsucc, hfail⟩ :=
    send_prep_notification_fallback ⟨true, true, true⟩ attemptSmsOk
      (sampleMeeting 1000000) sampleUser
      [NotificationChannel.slack, NotificationChannel.sms, NotificationChannel.email]
      (by decide)
  obtain ⟨h1, h2, h3, h4, _⟩ :=
    hsucc NotificationChannel.sms [NotificationChannel.email] (by decide)
  refine ⟨r, hs, h1, h2, ?_, ?_⟩
  · rw [h4]; decide
  · rw [h3]; decide

/-- C7: should_trigger_prep is the half-open window test: with lead hours H
for the meeting type and start instant S it holds exactly when
S - 3600*H <= now < S; in particular it is false at now = S and at
now = S - H hours - 1 second, and (for positive lead hours) true at
now = S - H hours and at now = S - 1 second. -/
theorem should_trigger_prep_window_boundary (prep_timing : PrepTiming) (m : Meeting)
    (now : PyDatetime) (H : Int)
    (hH : MeetingClassifier.prep_hours_value prep_timing m.meeting_type = H) :
    (MeetingClassifier.should_trigger_prep prep_timing m now = true ↔
      m.start_time.instant - 3600 * H ≤ now.instant ∧
      now.instant < m.start_time.instant) ∧
    MeetingClassifier.should_trigger_prep prep_timing m
      ⟨m.start_time.wall, m.start_time.tzOffset⟩ = false ∧
    MeetingClassifier.should_trigger_prep prep_timing m
      ⟨m.start_time.wall - 3600 * H - 1, m.start_time.tzOffset⟩ = false ∧
    (0 < H →
      MeetingClassifier.should_trigger_prep prep_timing m
        ⟨m.start_time.wall - 3600 * H, m.start_time.tzOffset⟩ = true ∧
      MeetingClassifier.should_trigger_prep prep_timing m
        ⟨m.start_time.wall - 1, m.start_time.tzOffset⟩ = true) := by
  unfold MeetingClassifier.should_trigger_prep
  rw [hH]
  simp only [PyDatetime.pyLe, PyDatetime.pyLt, PyDatetime.subSeconds, PyDatetime.instant,
    Bool.and_eq_true, decide_eq_true_eq, Bool.and_eq_false_iff, decide_eq_false_iff_not,
    not_le, not_lt]
  refine ⟨⟨fun hx => ⟨by omega, hx.2⟩, fun hx => ⟨by omega, hx.2⟩⟩, ?_, ?_, ?_⟩
  · omega
  · omega
  · intro hpos
    exact ⟨⟨by omega, by omega⟩, ⟨by omega, by omega⟩⟩

/-- Witness for should_trigger_prep_window_boundary: with the 24-hour lead of
the unknown type and start instant 1000000, prep triggers exactly at the
window opening instant 1000000 - 86400. -/
theorem should_trigger_prep_window_boundary_witness :
    MeetingClassifier.should_trigger_prep [("unknown", (24 : Int))] (sampleMeeting 1000000)
      ⟨1000000 - 3600 * 24, some 0⟩ = true ∧
    MeetingClassifier.should_trigger_prep [("unknown", (24 : Int))] (sampleMeeting 1000000)
      ⟨1000000, some 0⟩ = false := by
  have h := should_trigger_prep_window_boundary [("unknown", (24 : Int))]
    (sampleMeeting 1000000) ⟨0, some 0⟩ 24 (by decide)
  exact ⟨(h.2.2.2 (by decide)).1, h.2.1⟩

/-- C9: get_prep_hours raises (a ValueError) exactly when its argument is not
a MeetingType member; for a member it returns the configured hour count for
that type, and for an unconfigured type the configured value of the unknown
type (defaulting to 24 when unknown is unconfigured too). -/
theorem get_prep_hours_member_lookup (prep_timing : PrepTiming)
    (arg : MeetingClassifier.PyDynArg) :
    ((∃ e, MeetingClassifier.get_prep_hours prep_timing arg = Except.error e) ↔
      ∀ mt : MeetingType, arg ≠ MeetingClassifier.PyDynArg.ofMeetingType mt) ∧
    (∀ mt h, arg = MeetingClassifier.PyDynArg.ofMeetingType mt →
      List.lookup mt.value prep_timing = some h →
      MeetingClassifier.get_prep_hours prep_timing arg = Except.ok h) ∧
    (∀ mt, arg = MeetingClassifier.PyDynArg.ofMeetingType mt →
      List.lookup mt.value prep_timing = none →
      MeetingClassifier.get_prep_hours prep_timing arg =
        Except.ok ((List.lookup "unknown" prep_timing).getD 24)) := by
  cases arg with
  | ofMeetingType mt =>
    refine ⟨⟨?_, ?_⟩, ?_, ?_⟩
    · rintro ⟨e, he⟩
      simp [MeetingClassifier.get_prep_hours] at he
    · intro hall
      exact absurd rfl (hall mt)
    · intro mt2 h heq hlook
      cases heq
      simp [MeetingClassifier.get_prep_hours, MeetingClassifier.prep_hours_value, hlook]
    · intro mt2 heq hlook
      cases heq
      simp [MeetingClassifier.get_prep_hours, MeetingClassifier.prep_hours_value, hlook]
  | notMeetingType t =>
    refine ⟨⟨fun _ => ?_, fun _ => ?_⟩, ?_, ?_⟩
    · intro mt heq
      cases heq
    · exact ⟨_, rfl⟩
    · intro mt h heq
      cases heq
    · intro mt heq
      cases heq

/-- Witness for get_prep_hours_member_lookup: leadership_team is not
configured in a table holding only unknown = 24, so the lookup falls back to
24; a non-member argument raises. -/
theorem get_prep_hours_member_lookup_witness :
    MeetingClassifier.get_prep_hours [("unknown", (24 : Int))]
      (MeetingClassifier.PyDynArg.ofMeetingType MeetingType.leadership_team) =
      Except.ok 24 ∧
    (∃ e, MeetingClassifier.get_prep_hours [("unknown", (24 : Int))]
      (MeetingClassifier.PyDynArg.notMeetingType "str") = Except.error e) := by
  constructor
  · exact (get_prep_hours_member_lookup [("unknown", (24 : Int))]
      (MeetingClassifier.PyDynArg.ofMeetingType MeetingType.leadership_team)).2.2
      MeetingType.leadership_team rfl (by decide)
  · exact (get_prep_hours_member_lookup [("unknown", (24 : Int))]
      (MeetingClassifier.PyDynArg.notMeetingType "str")).1.mpr
      (fun mt heq => by cases heq)

/-- C10: a Meeting obtained from successful validation (direct construction
or from_dynamodb) has timezone-aware start_time, end_time, created_at and
updated_at, and validation of an item with a naive value in any of these
fields produces a ValueError instead of a Meeting; from_dynamodb validates
through the same constructor pass. -/
theorem meeting_validate_timezone_aware (item : Meeting) :
    (∀ m, Meeting.validate item = Except.ok m →
      m = item ∧ m.start_time.tzOffset.isNone = false ∧ m.end_time.tzOffset.isNone = false ∧
      m.created_at.tzOffset.isNone = false ∧ m.updated_at.tzOffset.isNone = false) ∧
    (¬ (item.start_time.tzOffset.isNone = false ∧ item.end_time.tzOffset.isNone = false ∧
        item.created_at.tzOffset.isNone = false ∧ item.updated_at.tzOffset.isNone = false) →
      ∃ msg, Meeting.validate item = Except.error (PyError.valueError msg)) ∧
    Meeting.from_dynamodb item = Meeting.validate item := by
  refine ⟨?_, ?_, rfl⟩
  · intro m hm
    unfold Meeting.validate Meeting.ensure_utc at hm
    simp only [bind, Except.bind, Functor.map, Except.map] at hm
    by_cases h1 : item.start_time.tzOffset.isNone
    · simp [Option.isNone_iff_eq_none.mp h1] at hm
    · by_cases h2 : item.end_time.tzOffset.isNone
      · simp [h1, Option.isNone_iff_eq_none.mp h2, Option.isNone_iff_eq_none] at hm
      · by_cases h3 : item.created_at.tzOffset.isNone
        · simp [h1, h2, Option.isNone_iff_eq_none.mp h3, Option.isNone_iff_eq_none] at hm
        · by_cases h4 : item.updated_at.tzOffset.isNone
          · simp [h1, h2, h3, Option.isNone_iff_eq_none.mp h4, Option.isNone_iff_eq_none] at hm
          · simp [h1, h2, h3, h4, Option.isNone_iff_eq_none] at hm
            have hmi : m = item := by
              simpa [pure, Except.pure] using hm.symm
            subst hmi
            refine ⟨rfl, ?_, ?_, ?_, ?_⟩
            · cases hx : m.start_time.tzOffset with
              | none => exact absurd (by simp [hx]) h1
              | some _ => rfl
            · cases hx : m.end_time.tzOffset with
              | none => exact absurd (by simp [hx]) h2
              | some _ => rfl
            · cases hx : m.created_at.tzOffset with
              | none => exact absurd (by simp [hx]) h3
              | some _ => rfl
            · cases hx : m.updated_at.tzOffset with
              | none => exact absurd (by simp [hx]) h4
              | some _ => rfl
  · intro hnot
    by_cases h1 : item.start_time.tzOffset.isNone
    · exact ⟨"Datetime must be timezone-aware", by simp [Meeting.validate, Meeting.ensure_utc, bind, Except.bind,
        Option.isNone_iff_eq_none.mp h1]⟩
    · by_cases h2 : item.end_time.tzOffset.isNone
      · exact ⟨"Datetime must be timezone-aware", by simp [Meeting.validate, Meeting.ensure_utc, bind, Except.bind, h1,
          Option.isNone_iff_eq_none.mp h2, Option.isNone_iff_eq_none]⟩
      · by_cases h3 : item.created_at.tzOffset.isNone
        · exact ⟨"Datetime must be timezone-aware", by simp [Meeting.validate, Meeting.ensure_utc, bind, Except.bind, h1, h2,
            Option.isNone_iff_eq_none.mp h3, Option.isNone_iff_eq_none]⟩
        · by_cases h4 : item.updated_at.tzOffset.isNone
          · exact ⟨"Datetime must be timezone-aware", by simp [Meeting.validate, Meeting.ensure_utc, bind, Except.bind,
              Functor.map, Except.map, h1, h2, h3,
              Option.isNone_iff_eq_none.mp h4, Option.isNone_iff_eq_none]⟩
          · exact absurd ⟨by simp [h1], by simp [h2], by simp [h3], by simp [h4]⟩ hnot

/-- Witness for meeting_validate_timezone_aware: an item with a naive
start_time fails validation, and an aware item validates to itself with all
four fields aware. -/
theorem meeting_validate_timezone_aware_witness :
    (∃ msg, Meeting.validate
      { meeting_id := "m1", user_id := "u1", title := "T",
        start_time := ⟨100, none⟩, end_time := ⟨200, some 0⟩,
        created_at := ⟨0, some 0⟩, updated_at := ⟨0, some 0⟩ } =
      Except.error (PyError.valueError msg)) ∧
    (sampleMeeting 1000000).start_time.tzOffset.isNone = false := by
  constructor
  · exact (meeting_validate_timezone_aware _).2.1 (by decide)
  · exact ((meeting_validate_timezone_aware (sampleMeeting 1000000)).1
      (sampleMeeting 1000000) rfl).2.1

/-- Loop-to-first-match lemma: the classification loop returns the type of
the first rule entry satisfying ruleMatches, or unknown when none does. -/
theorem classifyGo_eq_find (title : String) (n : Nat) (rules : DetectionRules) :
    MeetingClassifier.classifyGo title n rules =
      match rules.find? (ruleMatches title n) with
      | some entry => (MeetingType.fromString entry.1).getD MeetingType.unknown
      | none => MeetingType.unknown := by
  induction rules with
  | nil => rfl
  | cons entry rest ih =>
    obtain ⟨type_name, rule⟩ := entry
    unfold MeetingClassifier.classifyGo
    cases hf : MeetingType.fromString type_name with
    | none =>
      have hr : ruleMatches title n (type_name, rule) = false := by
        simp [ruleMatches, hf]
      rw [List.find?_cons_of_neg _ (by simp [hr]), ih]
    | some mt =>
      by_cases hkw : rule.keywords.any (fun keyword => pyStrIn (pyStrLower keyword) title)
      · by_cases hmin : rule.min_attendees.elim false (fun m => n < m)
        · have hr : ruleMatches title n (type_name, rule) = false := by
            simp [ruleMatches, hmin]
          rw [List.find?_cons_of_neg _ (by simp [hr])]
          simp [hf, hkw, hmin, ih]
        · by_cases hmax : rule.max_attendees.elim false (fun m => n > m)
          · have hr : ruleMatches title n (type_name, rule) = false := by
              simp [ruleMatches, hmax]
            rw [List.find?_cons_of_neg _ (by simp [hr])]
            simp [hf, hkw, hmin, hmax, ih]
          · have hr : ruleMatches title n (type_name, rule) = true := by
              simp [ruleMatches, hf, hkw, hmin, hmax]
            rw [List.find?_cons_of_pos _ (by simp [hr])]
            simp [hf, hkw, hmin, hmax]
      · have hr : ruleMatches title n (type_name, rule) = false := by
          simp [ruleMatches, hkw]
        rw [List.find?_cons_of_neg _ (by simp [hr])]
        simp [hf, hkw, ih]

/-- C8: classify_meeting is first-match-wins over the configured rule order:
it returns unknown on an empty title, otherwise the type of the first rule
entry whose keyword list has a case-insensitive substring match against the
lower-cased title and whose inclusive attendee bounds hold (entries whose
type name is not a MeetingType value are skipped); unknown when no entry
matches.  The function is total — classification never raises. -/
theorem classify_meeting_first_match (detection_rules : DetectionRules) (m : Meeting) :
    MeetingClassifier.classify_meeting detection_rules m =
      (if pyStrLower m.title = "" then MeetingType.unknown
       else
        match detection_rules.find? (ruleMatches (pyStrLower m.title) m.attendees.length) with
        | some entry => (MeetingType.fromString entry.1).getD MeetingType.unknown
        | none => MeetingType.unknown) := by
  by_cases ht : pyStrLower m.title = ""
  · simp [MeetingClassifier.classify_meeting, ht]
  · simp [MeetingClassifier.classify_meeting, ht, classifyGo_eq_find]

/-- C4 counterexample: an upsert over an existing row with
chat_session_id = "sess-1" (status prep_scheduled) stores the incoming
meeting's chat_session_id (none) and status (discovered) — fields owned by
later pipeline stages are NOT preserved; only created_at is. -/
theorem sync_upsert_overwrites_chat_session_id :
    (Store.get_item
      (CalendarMonitor.sync_meeting_to_dynamodb
        [{ meeting_id := "gcal-x", external_id := some "x", user_id := "u1", title := "Old",
           start_time := ⟨100, some 0⟩, end_time := ⟨200, some 0⟩,
           status := MeetingStatus.prep_scheduled, chat_session_id := some "sess-1",
           created_at := ⟨10, some 0⟩, updated_at := ⟨10, some 0⟩ }]
        { meeting_id := "gcal-x", external_id := some "x", user_id := "u1", title := "New",
          start_time := ⟨100, some 0⟩, end_time := ⟨200, some 0⟩,
          created_at := ⟨50, some 0⟩, updated_at := ⟨50, some 0⟩ }
        ⟨60, some 0⟩ "fresh").1 "gcal-x").map Meeting.chat_session_id = some none ∧
    (Store.get_item
      (CalendarMonitor.sync_meeting_to_dynamodb
        [{ meeting_id := "gcal-x", external_id := some "x", user_id := "u1", title := "Old",
           start_time := ⟨100, some 0⟩, end_time := ⟨200, some 0⟩,
           status := MeetingStatus.prep_scheduled, chat_session_id := some "sess-1",
           created_at := ⟨10, some 0⟩, updated_at := ⟨10, some 0⟩ }]
        { meeting_id := "gcal-x", external_id := some "x", user_id := "u1", title := "New",
          start_time := ⟨100, some 0⟩, end_time := ⟨200, some 0⟩,
          created_at := ⟨50, some 0⟩, updated_at := ⟨50, some 0⟩ }
        ⟨60, some 0⟩ "fresh").1 "gcal-x").map Meeting.status = some MeetingStatus.discovered ∧
    (Store.get_item
      [{ meeting_id := "gcal-x", external_id := some "x", user_id := "u1", title := "Old",
         start_time := ⟨100, some 0⟩, end_time := ⟨200, some 0⟩,
         status := MeetingStatus.prep_scheduled, chat_session_id := some "sess-1",
         created_at := ⟨10, some 0⟩, updated_at := ⟨10, some 0⟩ }]
      "gcal-x").map Meeting.chat_session_id = some (some "sess-1") ∧
    ¬ ((some (none : Option String)) = some (some "sess-1")) := by
  refine ⟨rfl, rfl, rfl, by decide⟩

/-- C4 amended: when a row with the meeting's key exists (and external_id is
truthy), the upsert preserves exactly the stored created_at; every other
stored field — including chat_session_id and status, which belong to later
pipeline stages — is overwritten with the incoming meeting's value, and
updated_at is stamped with now.  When no row is found (or external_id is
falsy), created_at is set to now and a fresh gcal- key is assigned only if
the incoming meeting_id is empty or not gcal-prefixed. -/
theorem sync_upsert_frame (store : Store) (m : Meeting) (now : PyDatetime) (fid : String) :
    (∀ ex, truthyExternal m = true → Store.get_item store m.meeting_id = some ex →
      CalendarMonitor.sync_meeting_to_dynamodb store m now fid =
        (Store.put_item store { m with created_at := ex.created_at, updated_at := now },
         { m with created_at := ex.created_at, updated_at := now })) ∧
    (truthyExternal m = false ∨ Store.get_item store m.meeting_id = none →
      CalendarMonitor.sync_meeting_to_dynamodb store m now fid =
        (Store.put_item store
          { m with
            meeting_id := if m.meeting_id = "" || !(pyStartsWith m.meeting_id "gcal-") then
                "gcal-" ++ fid else m.meeting_id,
            created_at := now, updated_at := now },
         { m with
           meeting_id := if m.meeting_id = "" || !(pyStartsWith m.meeting_id "gcal-") then
               "gcal-" ++ fid else m.meeting_id,
           created_at := now, updated_at := now })) := by
  constructor
  · intro ex htr hget
    rw [sync_spec]
    simp [htr, hget]
  · intro hcase
    rw [sync_spec]
    rcases hcase with hfalse | hnone
    · simp [hfalse]
    · by_cases htr : truthyExternal m = true
      · simp [htr, hnone]
      · simp [Bool.not_eq_true] at htr
        simp [htr]

/-- Witness for sync_upsert_frame: concrete upsert over an existing row
preserves its created_at instant 10 while taking every other field from the
incoming meeting. -/
theorem sync_upsert_frame_witness :
    CalendarMonitor.sync_meeting_to_dynamodb
      [{ meeting_id := "gcal-y", external_id := some "y", user_id := "u1", title := "Old",
         start_time := ⟨100, some 0⟩, end_time := ⟨200, some 0⟩,
         chat_session_id := some "sess-9",
         created_at := ⟨10, some 0⟩, updated_at := ⟨10, some 0⟩ }]
      { meeting_id := "gcal-y", external_id := some "y", user_id := "u1", title := "New",
        start_time := ⟨100, some 0⟩, end_time := ⟨200, some 0⟩,
        created_at := ⟨50, some 0⟩, updated_at := ⟨50, some 0⟩ }
      ⟨60, some 0⟩ "fresh" =
      (Store.put_item
        [{ meeting_id := "gcal-y", external_id := some "y", user_id := "u1", title := "Old",
           start_time := ⟨100, some 0⟩, end_time := ⟨200, some 0⟩,
           chat_session_id := some "sess-9",
           created_at := ⟨10, some 0⟩, updated_at := ⟨10, some 0⟩ }]
        { meeting_id := "gcal-y", external_id := some "y", user_id := "u1", title := "New",
          start_time := ⟨100, some 0⟩, end_time := ⟨200, some 0⟩,
          created_at := ⟨10, some 0⟩, updated_at := ⟨60, some 0⟩ },
       { meeting_id := "gcal-y", external_id := some "y", user_id := "u1", title := "New",
         start_time := ⟨100, some 0⟩, end_time := ⟨200, some 0⟩,
         created_at := ⟨10, some 0⟩, updated_at := ⟨60, some 0⟩ }) :=
  (sync_upsert_frame _ _ _ _).1
    { meeting_id := "gcal-y", external_id := some "y", user_id := "u1", title := "Old",
      start_time := ⟨100, some 0⟩, end_time := ⟨200, some 0⟩,
      chat_session_id := some "sess-9",
      created_at := ⟨10, some 0⟩, updated_at := ⟨10, some 0⟩ }
    (by decide) rfl

/-- Sync of a gcal-keyed meeting with truthy external_id: the key is kept,
the written row is stored under it, and created_at is the stored row's
created_at when one exists, else now. -/
theorem sync_gcal_keyed (store : Store) (m : Meeting) (now : PyDatetime) (fid : String)
    (htr : truthyExternal m = true) (hpre : pyStartsWith m.meeting_id "gcal-" = true)
    (hne : m.meeting_id = "" → False) :
    (CalendarMonitor.sync_meeting_to_dynamodb store m now fid).2.meeting_id = m.meeting_id ∧
    (CalendarMonitor.sync_meeting_to_dynamodb store m now fid).1 =
      Store.put_item store (CalendarMonitor.sync_meeting_to_dynamodb store m now fid).2 ∧
    (CalendarMonitor.sync_meeting_to_dynamodb store m now fid).2.created_at =
      (match Store.get_item store m.meeting_id with
       | some ex => ex.created_at
       | none => now) ∧
    (CalendarMonitor.sync_meeting_to_dynamodb store m now fid).2.user_id = m.user_id ∧
    (CalendarMonitor.sync_meeting_to_dynamodb store m now fid).2.external_id = m.external_id := by
  rw [sync_spec]
  simp only [htr, if_true]
  cases hg : Store.get_item store m.meeting_id with
  | some ex => simp
  | none =>
    have hcond : (m.meeting_id = "" || !(pyStartsWith m.meeting_id "gcal-")) = false := by
      rw [hpre]
      simp
      intro hx
      exact hne hx
    simp [hcond]

/-- C5 counterexample: with an empty external_id the dedup lookup is skipped
(truthiness guard), so the second sync of the same (user, external) meeting
resets created_at to its own now instead of preserving the first sync's
value — at most one row still exists, but created_at differs. -/
theorem sync_twice_empty_external_id_resets_created_at :
    (CalendarMonitor.sync_meeting_to_dynamodb
      (CalendarMonitor.sync_meeting_to_dynamodb []
        (event_to_meeting "u1" "" "T" ⟨100, some 0⟩ ⟨200, some 0⟩ [] none none none ⟨0, some 0⟩)
        ⟨0, some 0⟩ "f1").1
      (event_to_meeting "u1" "" "T" ⟨100, some 0⟩ ⟨200, some 0⟩ [] none none none ⟨50, some 0⟩)
      ⟨50, some 0⟩ "f2").2.created_at = ⟨50, some 0⟩ ∧
    (CalendarMonitor.sync_meeting_to_dynamodb []
      (event_to_meeting "u1" "" "T" ⟨100, some 0⟩ ⟨200, some 0⟩ [] none none none ⟨0, some 0⟩)
      ⟨0, some 0⟩ "f1").2.created_at = ⟨0, some 0⟩ ∧
    ¬ ((⟨50, some 0⟩ : PyDatetime) = ⟨0, some 0⟩) := by
  refine ⟨rfl, rfl, by decide⟩

/-- C5 amended: for a (user_id, external_id) pair with NON-EMPTY external_id,
syncing the same external calendar meeting twice adds at most one row for
that pair, the second sync reuses the first sync's meeting_id
(gcal-<external_id>), and the second sync's stored created_at equals the
created_at written by the first sync. -/
theorem sync_twice_dedup (s0 s1 s2 : Store) (w1 w2 : Meeting) (uid eid : String)
    (heid : eid = "" → False)
    (sum1 sum2 : String) (st1 en1 st2 en2 : PyDatetime)
    (att1 att2 : List String) (org1 org2 loc1 loc2 dsc1 dsc2 : Option String)
    (c1 c2 t1 t2 : PyDatetime) (f1 f2 : String)
    (h1 : CalendarMonitor.sync_meeting_to_dynamodb s0
      (event_to_meeting uid eid sum1 st1 en1 att1 org1 loc1 dsc1 c1) t1 f1 = (s1, w1))
    (h2 : CalendarMonitor.sync_meeting_to_dynamodb s1
      (event_to_meeting uid eid sum2 st2 en2 att2 org2 loc2 dsc2 c2) t2 f2 = (s2, w2)) :
    w2.meeting_id = w1.meeting_id ∧
    w2.created_at = w1.created_at ∧
    Store.get_item s2 ("gcal-" ++ eid) = some w2 ∧
    s2.countP (fun r => decide (r.user_id = uid ∧ r.external_id = some eid)) ≤
      s0.countP (fun r => decide (r.user_id = uid ∧ r.external_id = some eid)) + 1 := by
  have hm1 : (event_to_meeting uid eid sum1 st1 en1 att1 org1 loc1 dsc1 c1).meeting_id =
      "gcal-" ++ eid := rfl
  have hm2 : (event_to_meeting uid eid sum2 st2 en2 att2 org2 loc2 dsc2 c2).meeting_id =
      "gcal-" ++ eid := rfl
  have htr1 : truthyExternal (event_to_meeting uid eid sum1 st1 en1 att1 org1 loc1 dsc1 c1)
      = true := by
    simp [truthyExternal, event_to_meeting]
    intro hx
    exact heid hx
  have htr2 : truthyExternal (event_to_meeting uid eid sum2 st2 en2 att2 org2 loc2 dsc2 c2)
      = true := by
    simp [truthyExternal, event_to_meeting]
    intro hx
    exact heid hx
  have hk1 := sync_gcal_keyed s0 (event_to_meeting uid eid sum1 st1 en1 att1 org1 loc1 dsc1 c1)
    t1 f1 htr1 (by rw [hm1]; exact pyStartsWith_gcal eid)
    (by rw [hm1]; exact gcal_append_ne_empty eid)
  have hk2 := sync_gcal_keyed s1 (event_to_meeting uid eid sum2 st2 en2 att2 org2 loc2 dsc2 c2)
    t2 f2 htr2 (by rw [hm2]; exact pyStartsWith_gcal eid)
    (by rw [hm2]; exact gcal_append_ne_empty eid)
  rw [h1] at hk1
  rw [h2] at hk2
  obtain ⟨hw1id, hs1, hw1c, hw1u, hw1e⟩ := hk1
  obtain ⟨hw2id, hs2, hw2c, hw2u, hw2e⟩ := hk2
  dsimp only at hw1id hs1 hw1c hw2id hs2 hw2c
  rw [hm1] at hw1id
  rw [hm2] at hw2id
  have hget1 : Store.get_item s1 ("gcal-" ++ eid) = some w1 := by
    rw [hs1, ← hw1id]
    exact get_item_put_item_same s0 w1
  rw [hm2, hget1] at hw2c
  refine ⟨by rw [hw2id, hw1id], hw2c, ?_, ?_⟩
  · rw [hs2, ← hw2id]
    exact get_item_put_item_same s1 w2
  · rw [hs2, hs1]
    rw [put_item_put_item_same s0 w1 w2 (by rw [hw2id, hw1id])]
    exact countP_put_item_le s0 w2 _

/-- Witness for sync_twice_dedup: re-syncing external event e1 keeps the
key gcal-e1 and the first sync's created_at instant 0. -/
theorem sync_twice_dedup_witness :
    (CalendarMonitor.sync_meeting_to_dynamodb
      (CalendarMonitor.sync_meeting_to_dynamodb []
        (event_to_meeting "u1" "e1" "T" ⟨100, some 0⟩ ⟨200, some 0⟩ [] none none none
          ⟨0, some 0⟩) ⟨0, some 0⟩ "f1").1
      (event_to_meeting "u1" "e1" "T2" ⟨100, some 0⟩ ⟨200, some 0⟩ [] none none none
        ⟨50, some 0⟩) ⟨50, some 0⟩ "f2").2.created_at =
    (CalendarMonitor.sync_meeting_to_dynamodb []
      (event_to_meeting "u1" "e1" "T" ⟨100, some 0⟩ ⟨200, some 0⟩ [] none none none
        ⟨0, some 0⟩) ⟨0, some 0⟩ "f1").2.created_at := by
  have h := sync_twice_dedup []
    (CalendarMonitor.sync_meeting_to_dynamodb []
      (event_to_meeting "u1" "e1" "T" ⟨100, some 0⟩ ⟨200, some 0⟩ [] none none none
        ⟨0, some 0⟩) ⟨0, some 0⟩ "f1").1
    (CalendarMonitor.sync_meeting_to_dynamodb
      (CalendarMonitor.sync_meeting_to_dynamodb []
        (event_to_meeting "u1" "e1" "T" ⟨100, some 0⟩ ⟨200, some 0⟩ [] none none none
          ⟨0, some 0⟩) ⟨0, some 0⟩ "f1").1
      (event_to_meeting "u1" "e1" "T2" ⟨100, some 0⟩ ⟨200, some 0⟩ [] none none none
        ⟨50, some 0⟩) ⟨50, some 0⟩ "f2").1
    (CalendarMonitor.sync_meeting_to_dynamodb []
      (event_to_meeting "u1" "e1" "T" ⟨100, some 0⟩ ⟨200, some 0⟩ [] none none none
        ⟨0, some 0⟩) ⟨0, some 0⟩ "f1").2
    (CalendarMonitor.sync_meeting_to_dynamodb
      (CalendarMonitor.sync_meeting_to_dynamodb []
        (event_to_meeting "u1" "e1" "T" ⟨100, some 0⟩ ⟨200, some 0⟩ [] none none none
          ⟨0, some 0⟩) ⟨0, some 0⟩ "f1").1
      (event_to_meeting "u1" "e1" "T2" ⟨100, some 0⟩ ⟨200, some 0⟩ [] none none none
        ⟨50, some 0⟩) ⟨50, some 0⟩ "f2").2
    "u1" "e1" (by decide) "T" "T2" ⟨100, some 0⟩ ⟨200, some 0⟩ ⟨100, some 0⟩ ⟨200, some 0⟩
    [] [] none none none none none none ⟨0, some 0⟩ ⟨50, some 0⟩ ⟨0, some 0⟩ ⟨50, some 0⟩
    "f1" "f2" rfl rfl
  exact h.2.1

/-- C1 failing scenario: a Leadership Team Sync meeting (8 attendees, 24-hour
lead) is scanned at start - 10h and rescanned at start - 8h; between the
scans the stored row's status is advanced to prep_scheduled (as the Trigger
Handler would).  Both scans publish a PrepTriggerEvent — the status check in
process_user_calendar reads the freshly fetched meeting object, whose status
is always discovered/classified, and the sync overwrites the stored
prep_scheduled status back to classified. -/
theorem prep_trigger_reemitted_on_rescan :
    let rules : DetectionRules :=
      [("leadership_team", { keywords := ["leadership"], min_attendees := some 5 })]
    let timing : PrepTiming := [("leadership_team", 24), ("unknown", 24)]
    let fetched1 := event_to_meeting "U1" "evt1" "Leadership Team Sync"
      ⟨1000000, some 0⟩ ⟨1003600, some 0⟩
      ["a1", "a2", "a3", "a4", "a5", "a6", "a7", "a8"] none none none ⟨964000, some 0⟩
    let step1 := CalendarMonitor.process_user_calendar_step rules timing [] fetched1
      ⟨964000, some 0⟩ "f1"
    let advanced := match Store.get_item step1.1 "gcal-evt1" with
      | some r => Store.put_item step1.1 { r with status := MeetingStatus.prep_scheduled }
      | none => step1.1
    let fetched2 := event_to_meeting "U1" "evt1" "Leadership Team Sync"
      ⟨1000000, some 0⟩ ⟨1003600, some 0⟩
      ["a1", "a2", "a3", "a4", "a5", "a6", "a7", "a8"] none none none ⟨971200, some 0⟩
    let step2 := CalendarMonitor.process_user_calendar_step rules timing advanced fetched2
      ⟨971200, some 0⟩ "f2"
    step1.2.2.isSome = true ∧
    (Store.get_item advanced "gcal-evt1").map Meeting.status =
      some MeetingStatus.prep_scheduled ∧
    step2.2.2.isSome = true ∧
    (Store.get_item step2.1 "gcal-evt1").map Meeting.status =
      some MeetingStatus.classified := by
  exact ⟨rfl, rfl, rfl, rfl⟩

/-- C2 failing scenario: the Trigger Handler invoked on an event whose
meeting and user exist does not skip duplicates gracefully — reading
meeting.notification_sent_at raises AttributeError (the Meeting model has no
such field), the except clause turns every such invocation into a 500
InternalError response, no state is written, and a second identical
invocation behaves the same; the claimed already-sent skip never occurs. -/
theorem duplicate_delivery_not_skipped : ∀ attempt : ChannelAttempt,
    (PrepTriggerHandler.lambda_handler ⟨true, true, true⟩ attempt
      [{ user_id := "U12345", google_id := "g1", email := "u@example.com", name := "Test User",
         created_at := ⟨0, some 0⟩, last_login_at := ⟨0, some 0⟩,
         updated_at := ⟨0, some 0⟩ }]
      ⟨999000, some 0⟩
      [{ meeting_id := "gcal-abc123", external_id := some "abc123", user_id := "U12345",
         title := "Leadership Team Sync", start_time := ⟨1000000, some 0⟩,
         end_time := ⟨1003600, some 0⟩, meeting_type := MeetingType.leadership_team,
         status := MeetingStatus.classified, created_at := ⟨0, some 0⟩,
         updated_at := ⟨0, some 0⟩ }]
      { meeting_id := some "gcal-abc123", user_id := some "U12345" }).1 =
      { statusCode := 500, body := PrepTriggerHandler.LambdaBody.internalError } ∧
    (PrepTriggerHandler.lambda_handler ⟨true, true, true⟩ attempt
      [{ user_id := "U12345", google_id := "g1", email := "u@example.com", name := "Test User",
         created_at := ⟨0, some 0⟩, last_login_at := ⟨0, some 0⟩,
         updated_at := ⟨0, some 0⟩ }]
      ⟨999000, some 0⟩
      [{ meeting_id := "gcal-abc123", external_id := some "abc123", user_id := "U12345",
         title := "Leadership Team Sync", start_time := ⟨1000000, some 0⟩,
         end_time := ⟨1003600, some 0⟩, meeting_type := MeetingType.leadership_team,
         status := MeetingStatus.classified, created_at := ⟨0, some 0⟩,
         updated_at := ⟨0, some 0⟩ }]
      { meeting_id := some "gcal-abc123", user_id := some "U12345" }).2 =
      [{ meeting_id := "gcal-abc123", external_id := some "abc123", user_id := "U12345",
         title := "Leadership Team Sync", start_time := ⟨1000000, some 0⟩,
         end_time := ⟨1003600, some 0⟩, meeting_type := MeetingType.leadership_team,
         status := MeetingStatus.classified, created_at := ⟨0, some 0⟩,
         updated_at := ⟨0, some 0⟩ }] ∧
    (PrepTriggerHandler.lambda_handler ⟨true, true, true⟩ attempt
      [{ user_id := "U12345", google_id := "g1", email := "u@example.com", name := "Test User",
         created_at := ⟨0, some 0⟩, last_login_at := ⟨0, some 0⟩,
         updated_at := ⟨0, some 0⟩ }]
      ⟨999000, some 0⟩
      (PrepTriggerHandler.lambda_handler ⟨true, true, true⟩ attempt
        [{ user_id := "U12345", google_id := "g1", email := "u@example.com",
           name := "Test User", created_at := ⟨0, some 0⟩, last_login_at := ⟨0, some 0⟩,
           updated_at := ⟨0, some 0⟩ }]
        ⟨999000, some 0⟩
        [{ meeting_id := "gcal-abc123", external_id := some "abc123", user_id := "U12345",
           title := "Leadership Team Sync", start_time := ⟨1000000, some 0⟩,
           end_time := ⟨1003600, some 0⟩, meeting_type := MeetingType.leadership_team,
           status := MeetingStatus.classified, created_at := ⟨0, some 0⟩,
           updated_at := ⟨0, some 0⟩ }]
        { meeting_id := some "gcal-abc123", user_id := some "U12345" }).2
      { meeting_id := some "gcal-abc123", user_id := some "U12345" }).1 =
      { statusCode := 500, body := PrepTriggerHandler.LambdaBody.internalError } :=
  fun _ => ⟨rfl, rfl, rfl⟩

/-- C3 failing scenario: an invocation with an existing classified meeting
and user never reaches the message_id bookkeeping — the handler fails with
500 at the idempotency read, independently of what the Notifier would return
(the channel-attempt oracle is never consulted), so notification_id and
notification_sent_at are never stamped. -/
theorem notification_result_never_recorded :
    ∀ attempt attempt2 : ChannelAttempt,
    (PrepTriggerHandler.lambda_handler ⟨true, true, true⟩ attempt
      [{ user_id := "U67890", google_id := "g2", email := "v@example.com", name := "Other User",
         created_at := ⟨0, some 0⟩, last_login_at := ⟨0, some 0⟩,
         updated_at := ⟨0, some 0⟩ }]
      ⟨500000, some 0⟩
      [{ meeting_id := "gcal-def456", external_id := some "def456", user_id := "U67890",
         title := "1-1 with Alice", start_time := ⟨540000, some 0⟩,
         end_time := ⟨543600, some 0⟩, meeting_type := MeetingType.one_on_one,
         status := MeetingStatus.classified, created_at := ⟨0, some 0⟩,
         updated_at := ⟨0, some 0⟩ }]
      { meeting_id := some "gcal-def456", user_id := some "U67890" }) =
    (PrepTriggerHandler.lambda_handler ⟨true, true, true⟩ attempt2
      [{ user_id := "U67890", google_id := "g2", email := "v@example.com", name := "Other User",
         created_at := ⟨0, some 0⟩, last_login_at := ⟨0, some 0⟩,
         updated_at := ⟨0, some 0⟩ }]
      ⟨500000, some 0⟩
      [{ meeting_id := "gcal-def456", external_id := some "def456", user_id := "U67890",
         title := "1-1 with Alice", start_time := ⟨540000, some 0⟩,
         end_time := ⟨543600, some 0⟩, meeting_type := MeetingType.one_on_one,
         status := MeetingStatus.classified, created_at := ⟨0, some 0⟩,
         updated_at := ⟨0, some 0⟩ }]
      { meeting_id := some "gcal-def456", user_id := some "U67890" }) ∧
    (PrepTriggerHandler.lambda_handler ⟨true, true, true⟩ attempt
      [{ user_id := "U67890", google_id := "g2", email := "v@example.com", name := "Other User",
         created_at := ⟨0, some 0⟩, last_login_at := ⟨0, some 0⟩,
         updated_at := ⟨0, some 0⟩ }]
      ⟨500000, some 0⟩
      [{ meeting_id := "gcal-def456", external_id := some "def456", user_id := "U67890",
         title := "1-1 with Alice", start_time := ⟨540000, some 0⟩,
         end_time := ⟨543600, some 0⟩, meeting_type := MeetingType.one_on_one,
         status := MeetingStatus.classified, created_at := ⟨0, some 0⟩,
         updated_at := ⟨0, some 0⟩ }]
      { meeting_id := some "gcal-def456", user_id := some "U67890" }).1.statusCode = 500 :=
  fun _ _ => ⟨rfl, rfl⟩
